/-
Verification of the Dota2Draft suggestion scoring engine.

This file shallowly embeds the scoring engine of the repository
(`src/lib/advanced-draft-analyzer.ts`, `src/lib/draft-logic.ts`,
`src/lib/draft-integration.ts`, `src/lib/opendota.ts`, `src/lib/types.ts`)
into Lean 4 and proves properties of the embedded definitions.

Modelling conventions:
- JavaScript numbers are modelled by `ℚ`.  Every arithmetic operation the
  engine performs (+, *, /, min, max, comparisons) is exact on the rationals
  appearing here, so no floating-point rounding is lost except inside
  `Number.prototype.toFixed`, which is modelled as round-half-up to two
  decimals (`toFixed2`).
- `x || d` on numbers (JavaScript falsy default) is modelled by `jsOrQ`,
  which substitutes `d` for both `undefined` (`none`) and `0`.
- `Array.prototype.sort` with comparator `(a, b) => b.score - a.score` is
  modelled by `List.insertionSort` with the relation `descBy score`
  (descending by score).  No theorem below depends on the order of ties.
- TypeScript string-literal union types (`primary_attr`, `attack_type`,
  `Role`, playstyles, item strategies, game phases) are modelled as
  `String`, exactly as the code compares them.
- Presentational fields that no modelled function reads (`img`, `icon`,
  trend arrays, per-bracket win counts) are omitted from the records.
-/
import Mathlib

namespace Dota2Draft

/-- JavaScript `Math.min` on two numbers, written so that the kernel can
evaluate it on concrete rationals. -/
def jsMin (a b : ℚ) : ℚ := if a ≤ b then a else b

/-- JavaScript `Math.max` on two numbers, written so that the kernel can
evaluate it on concrete rationals. -/
def jsMax (a b : ℚ) : ℚ := if a ≤ b then b else a

theorem jsMin_eq_min (a b : ℚ) : jsMin a b = min a b := (min_def a b).symm

theorem jsMax_eq_max (a b : ℚ) : jsMax a b = max a b := (max_def a b).symm

/-- Whether a fallible computation raised. -/
def isError {ε α : Type} : Except ε α → Bool
  | Except.error _ => true
  | Except.ok _ => false

/-- Sequential traversal of a list by a fallible computation: the first
raised exception aborts the rest, exactly as a thrown exception aborts a
JavaScript `Array.prototype.map`. -/
def mapME {ε α β : Type} (f : α → Except ε β) : List α → Except ε (List β)
  | [] => Except.ok []
  | x :: xs => do
    let y ← f x
    let ys ← mapME f xs
    return y :: ys

/-- JavaScript `Math.round`: round half up. -/
def jsRound (q : ℚ) : ℤ := ⌊q + 1/2⌋

/-- `Number(x.toFixed(2))` for the non-negative rationals used here:
round half up at the second decimal. -/
def toFixed2 (q : ℚ) : ℚ := (⌊q * 100 + 1/2⌋ : ℚ) / 100

/-- JavaScript `x || d` where `x : number | undefined`: both `undefined`
and `0` fall back to the default `d`. -/
def jsOrQ (x : Option ℚ) (d : ℚ) : ℚ :=
  match x with
  | some v => if v = 0 then d else v
  | none => d

/-- `calculateWinRate` from `src/lib/opendota.ts`: percentage with a
division-by-zero guard and `toFixed(2)` rounding. -/
def calculateWinRate (wins games : ℚ) : ℚ :=
  if games = 0 then 0 else toFixed2 (wins / games * 100)

/-- `Hero` from `src/lib/types.ts` (presentational `img`/`icon` omitted). -/
structure Hero where
  id : ℤ
  name : String
  localized_name : String
  primary_attr : String
  attack_type : String
  roles : List String
deriving DecidableEq

/-- The numeric fields of `HeroStats` from `src/lib/types.ts` that the
engine reads: public/pro/turbo pick and win counts and the eight
per-bracket pick counts (the keys ending in `_pick` that
`DraftAnalyzer.getMetaScore` sums; trend arrays and bracket win counts are
read by no modelled function and are omitted). -/
structure HeroStats where
  id : ℤ
  pub_pick : ℚ
  pub_win : ℚ
  pro_pick : ℚ
  pro_win : ℚ
  pro_ban : ℚ
  turbo_picks : ℚ
  turbo_wins : ℚ
  bracket1_pick : ℚ
  bracket2_pick : ℚ
  bracket3_pick : ℚ
  bracket4_pick : ℚ
  bracket5_pick : ℚ
  bracket6_pick : ℚ
  bracket7_pick : ℚ
  bracket8_pick : ℚ
deriving DecidableEq

/-- `HeroMatchupData` from `src/lib/types.ts`. -/
structure HeroMatchupData where
  hero_id : ℤ
  games_played : ℚ
  wins : ℚ
deriving DecidableEq

/-- `DraftState` from `src/lib/types.ts`: each team is a list of slots,
each slot empty (`none`) or holding a hero. -/
structure DraftState where
  yourTeam : List (Option Hero)
  enemyTeam : List (Option Hero)
  currentPhase : String
  currentPick : ℕ
deriving DecidableEq

/-- `GameContext` from `src/lib/advanced-draft-analyzer.ts`; absent
optional fields are `none`. -/
structure GameContext where
  expectedDuration : Option ℚ := none
  preferredLanes : Option (List ℕ) := none
  playstyle : Option String := none
  itemStrategy : Option String := none
deriving DecidableEq

/-- `ItemBuild` from `src/lib/advanced-draft-analyzer.ts`. -/
structure ItemBuild where
  name : String
  items : List String
  timing : List ℚ
  effectiveness : ℚ
  gamePhase : String
deriving DecidableEq

/-- `LaneAssignment` from `src/lib/advanced-draft-analyzer.ts`
(`position` is 1–5). -/
structure LaneAssignment where
  position : ℕ
  hero : Hero
  confidence : ℚ
  reasoning : List String
deriving DecidableEq

/-- `TimingWindow` from `src/lib/advanced-draft-analyzer.ts`.  The source
field `end` is a Lean keyword and is rendered `endMin`. -/
structure TimingWindow where
  phase : String
  start : ℚ
  endMin : ℚ
  powerLevel : ℚ
  keyItems : List String
  objectives : List String
deriving DecidableEq

/-- `ProPattern` from `src/lib/advanced-draft-analyzer.ts`; the
`pairings`/`counters` entries `{heroId, synergy/effectiveness}` are pairs. -/
structure ProPattern where
  pickOrder : ℚ
  banPriority : ℚ
  firstPickRate : ℚ
  situationalPickRate : ℚ
  pairings : List (ℤ × ℚ)
  counters : List (ℤ × ℚ)
deriving DecidableEq

/-- `ScoreBreakdown` from `src/lib/advanced-draft-analyzer.ts`. -/
structure ScoreBreakdown where
  meta : ℚ
  counter : ℚ
  synergy : ℚ
  itemSynergy : ℚ
  laneOptimization : ℚ
  timing : ℚ
  proPattern : ℚ
  mlSynergy : ℚ
deriving DecidableEq

/-- `AdvancedSuggestion` from `src/lib/advanced-draft-analyzer.ts`. -/
structure AdvancedSuggestion where
  hero : Hero
  score : ℚ
  reasons : List String
  breakdown : ScoreBreakdown
  itemSynergy : List ItemBuild
  laneOptimization : List LaneAssignment
  timingWindows : List TimingWindow
  proPatterns : ProPattern
deriving DecidableEq

/-- `DraftSuggestion` from `src/lib/types.ts` (the basic analyzer rounds
its score with `Math.round`, hence `ℤ`). -/
structure DraftSuggestion where
  hero : Hero
  score : ℤ
  win_rate : ℚ
  confidence : String
  reasoning : List String
  counters : List String
  synergies : List String
deriving DecidableEq

/-- `AdvancedDraftSuggestion` from `src/lib/draft-logic.ts` (extends
`DraftSuggestion`; the advanced path keeps the unrounded rational score). -/
structure AdvancedDraftSuggestion where
  hero : Hero
  score : ℚ
  win_rate : ℚ
  confidence : String
  reasoning : List String
  counters : List String
  synergies : List String
  advancedBreakdown : ScoreBreakdown
  itemRecommendations : List String
  optimalLane : ℕ
  timingWindow : String
  proPickRate : ℚ
deriving DecidableEq

/-- Descending comparison by a projection; models the JavaScript sort
comparator `(a, b) => b.score - a.score`. -/
def descBy {α β : Type} (f : α → β) [LinearOrder β] (a b : α) : Prop :=
  f b ≤ f a

instance {α β : Type} (f : α → β) [LinearOrder β] : DecidableRel (descBy f) :=
  fun a b => inferInstanceAs (Decidable (f b ≤ f a))

instance {α β : Type} (f : α → β) [LinearOrder β] : IsTotal α (descBy f) :=
  ⟨fun a b => le_total (f b) (f a)⟩

instance {α β : Type} (f : α → β) [LinearOrder β] : IsTrans α (descBy f) :=
  ⟨fun _ _ _ h₁ h₂ => le_trans h₂ h₁⟩

namespace MLSynergyPredictor

/-- `MLSynergyPredictor.predictHeroSynergy`: base 0.5, +0.2 when `hero1`
has a support-class role and `hero2` a core-class role, +0.05 when attack
types differ, clamped to [0, 1]. -/
def predictHeroSynergy (hero1 hero2 : Hero) : ℚ :=
  let supportRoles := ["Support", "Disabler"]
  let coreRoles := ["Carry", "Nuker", "Pusher"]
  let hero1IsSupport := hero1.roles.any (fun role => supportRoles.contains role)
  let hero2IsCore := hero2.roles.any (fun role => coreRoles.contains role)
  let synergy : ℚ := 0.5
  let synergy := if hero1IsSupport && hero2IsCore then synergy + 0.2 else synergy
  let synergy := if hero1.attack_type ≠ hero2.attack_type then synergy + 0.05 else synergy
  jsMin 1 (jsMax 0 synergy)

/-- The ordered index pairs `i < j` of the nested loops in
`predictTeamSynergy`. -/
def orderedPairs : List Hero → List (Hero × Hero)
  | [] => []
  | x :: xs => xs.map (fun y => (x, y)) ++ orderedPairs xs

/-- `MLSynergyPredictor.predictTeamSynergy`: average of
`predictHeroSynergy` over the ordered pairs `i < j`; 0.5 for fewer than
two heroes. -/
def predictTeamSynergy (heroes : List Hero) : ℚ :=
  if heroes.length < 2 then 0.5
  else
    let pairs := orderedPairs heroes
    let totalSynergy := (pairs.map (fun p => predictHeroSynergy p.1 p.2)).sum
    let pairCount := pairs.length
    if pairCount > 0 then totalSynergy / (pairCount : ℚ) else 0.5

end MLSynergyPredictor

namespace ItemBuildAnalyzer

/-- `ItemBuildAnalyzer.generateItemBuilds`: role-gated builds, adjusted by
expected duration (`&&`-truthiness: a missing or zero duration disables
both the early-game and late-game variants) and playstyle. -/
def generateItemBuilds (hero : Hero) (gameContext : GameContext) : List ItemBuild :=
  let isEarlyGame :=
    match gameContext.expectedDuration with
    | some d => d ≠ 0 && d < 30
    | none => false
  let isLateGame :=
    match gameContext.expectedDuration with
    | some d => d ≠ 0 && d > 45
    | none => false
  let isAggressive := gameContext.playstyle = some "aggressive"
  let carryBuilds : List ItemBuild :=
    if hero.roles.contains "Carry" then
      [{ name := if isEarlyGame then "Early Game Carry" else "Carry Build",
         items := if isEarlyGame then
             ["power_treads", "drums", "black_king_bar", "desolator"]
           else
             ["power_treads", "battle_fury", "black_king_bar", "daedalus"],
         timing := if isEarlyGame then [6, 12, 20, 28] else [8, 18, 25, 35],
         effectiveness := if isAggressive then 0.9 else 0.85,
         gamePhase := if isEarlyGame then "early" else "mid" }]
    else []
  let supportBuilds : List ItemBuild :=
    if hero.roles.contains "Support" then
      [{ name := "Support Build",
         items := ["arcane_boots", "force_staff", "glimmer_cape", "aether_lens"],
         timing := [6, 15, 25, 35],
         effectiveness := 0.8,
         gamePhase := "early" }]
    else []
  let initiatorBuilds : List ItemBuild :=
    if hero.roles.contains "Initiator" then
      [{ name := "Initiator Build",
         items := ["blink_dagger", "black_king_bar", "pipe", "crimson_guard"],
         timing := [12, 20, 30, 40],
         effectiveness := 0.75,
         gamePhase := "mid" }]
    else []
  let nukerBuilds : List ItemBuild :=
    if hero.roles.contains "Nuker" then
      [{ name := "Nuker Build",
         items := ["arcane_boots", "aether_lens", "aghanims_scepter", "refresher"],
         timing := [10, 18, 28, 45],
         effectiveness := 0.9,
         gamePhase := if isLateGame then "late" else "mid" }]
    else []
  carryBuilds ++ supportBuilds ++ initiatorBuilds ++ nukerBuilds

/-- `ItemBuildAnalyzer.calculateItemSynergy`: 0.5, +0.3 when the hero is a
Support and a teammate is a Carry; capped at 1. -/
def calculateItemSynergy (hero : Hero) (teamHeroes : List Hero) : ℚ :=
  let synergy : ℚ := 0.5
  let synergy :=
    if hero.roles.contains "Support" &&
        teamHeroes.any (fun h => h.roles.contains "Carry") then
      synergy + 0.3
    else synergy
  jsMin 1 synergy

end ItemBuildAnalyzer

namespace LaneOptimizer

/-- `LaneOptimizer.determineOptimalPosition`.  The claimed-position set is
seeded from every hero of `teamHeroes` (which, at every call site,
contains `hero` itself): Carry claims 1, Nuker 2, Initiator 3, Support 5.
Then: the hero's own canonical position if unclaimed, else the first
unclaimed position of 1–5, else 4. -/
def determineOptimalPosition (hero : Hero) (teamHeroes : List Hero) : ℕ :=
  let takenPositions : List ℕ :=
    teamHeroes.foldl
      (fun acc h =>
        let acc := if h.roles.contains "Carry" then acc ++ [1] else acc
        let acc := if h.roles.contains "Nuker" then acc ++ [2] else acc
        let acc := if h.roles.contains "Initiator" then acc ++ [3] else acc
        let acc := if h.roles.contains "Support" then acc ++ [5] else acc
        acc)
      []
  if hero.roles.contains "Carry" && !takenPositions.contains 1 then 1
  else if hero.roles.contains "Nuker" && !takenPositions.contains 2 then 2
  else if hero.roles.contains "Initiator" && !takenPositions.contains 3 then 3
  else if hero.roles.contains "Support" && !takenPositions.contains 5 then 5
  else if !takenPositions.contains 1 then 1
  else if !takenPositions.contains 2 then 2
  else if !takenPositions.contains 3 then 3
  else if !takenPositions.contains 4 then 4
  else if !takenPositions.contains 5 then 5
  else 4

/-- `LaneOptimizer.calculatePositionConfidence`: 0.5 base, role-match and
primary-attribute bonuses, capped at 1. -/
def calculatePositionConfidence (hero : Hero) (position : ℕ) : ℚ :=
  let confidence : ℚ := 0.5
  let confidence :=
    if position = 1 && hero.roles.contains "Carry" then confidence + 0.4 else confidence
  let confidence :=
    if position = 2 && hero.roles.contains "Nuker" then confidence + 0.4 else confidence
  let confidence :=
    if position = 3 && hero.roles.contains "Initiator" then confidence + 0.4 else confidence
  let confidence :=
    if position = 4 && hero.roles.contains "Support" then confidence + 0.3 else confidence
  let confidence :=
    if position = 5 && hero.roles.contains "Support" then confidence + 0.4 else confidence
  let confidence :=
    if position = 1 && hero.primary_attr = "agi" then confidence + 0.1 else confidence
  let confidence :=
    if position = 2 && hero.primary_attr = "int" then confidence + 0.1 else confidence
  let confidence :=
    if position = 3 && hero.primary_attr = "str" then confidence + 0.1 else confidence
  jsMin 1 confidence

/-- `LaneOptimizer.getPositionReasoning`: a static string per position. -/
def getPositionReasoning (_hero : Hero) (position : ℕ) : List String :=
  (if position = 1 then ["Strong late game scaling"] else []) ++
  (if position = 2 then ["High burst damage potential"] else []) ++
  (if position = 3 then ["Initiator and space creator"] else []) ++
  (if position = 4 then ["Utility and roaming potential"] else []) ++
  (if position = 5 then ["Strong support abilities"] else [])

/-- `LaneOptimizer.optimizeLanes`: one assignment per input hero, each
computed by `determineOptimalPosition` against the whole input list. -/
def optimizeLanes (heroes : List Hero) : List LaneAssignment :=
  heroes.map (fun hero =>
    let position := determineOptimalPosition hero heroes
    { position := position,
      hero := hero,
      confidence := calculatePositionConfidence hero position,
      reasoning := getPositionReasoning hero position })

end LaneOptimizer

namespace TimingAnalyzer

/-- `TimingAnalyzer.calculateEarlyPower`. -/
def calculateEarlyPower (hero : Hero) : ℚ :=
  let power : ℚ := 0.5
  let power := if hero.primary_attr = "str" then power + 0.2 else power
  let power := if hero.roles.contains "Support" then power + 0.1 else power
  let power := if hero.roles.contains "Nuker" then power + 0.15 else power
  jsMin 1 power

/-- `TimingAnalyzer.calculateMidPower`. -/
def calculateMidPower (hero : Hero) : ℚ :=
  let power : ℚ := 0.6
  let power := if hero.roles.contains "Initiator" then power + 0.2 else power
  let power := if hero.roles.contains "Nuker" then power + 0.15 else power
  let power := if hero.roles.contains "Pusher" then power + 0.1 else power
  jsMin 1 power

/-- `TimingAnalyzer.calculateLatePower`. -/
def calculateLatePower (hero : Hero) : ℚ :=
  let power : ℚ := 0.5
  let power := if hero.roles.contains "Carry" then power + 0.3 else power
  let power := if hero.primary_attr = "agi" then power + 0.15 else power
  let power := if hero.roles.contains "Durable" then power + 0.1 else power
  jsMin 1 power

/-- `TimingAnalyzer.analyzeTimingWindows`: exactly the three windows the
source pushes, with `expectedDuration || 40` as the duration default. -/
def analyzeTimingWindows (hero : Hero) (gameContext : GameContext) : List TimingWindow :=
  let expectedDuration := jsOrQ gameContext.expectedDuration 40
  let isAggressive := gameContext.playstyle = some "aggressive"
  [{ phase := "early",
     start := 0,
     endMin := if isAggressive then 12 else 15,
     powerLevel := calculateEarlyPower hero,
     keyItems := if gameContext.itemStrategy = some "early" then
         ["boots", "magic_wand", "bracer"]
       else ["boots", "magic_wand"],
     objectives := if isAggressive then
         ["Laning", "Early fights", "Tower pressure"]
       else ["Laning", "Last hitting"] },
   { phase := "mid",
     start := 15,
     endMin := 35,
     powerLevel := calculateMidPower hero,
     keyItems := ["blink_dagger", "black_king_bar"],
     objectives := ["Team fights", "Objectives"] },
   { phase := "late",
     start := 35,
     endMin := jsMax 60 expectedDuration,
     powerLevel := calculateLatePower hero,
     keyItems := ["luxury_items"],
     objectives := ["High ground", "Ancient"] }]

end TimingAnalyzer

namespace ProSceneAnalyzer

/-- JavaScript `hero.roles?.length || 1`: an empty role list falls back
to 1. -/
def rolesLengthOrOne (hero : Hero) : ℚ :=
  if hero.roles.length = 0 then 1 else (hero.roles.length : ℚ)

/-- `ProSceneAnalyzer.calculatePickOrder`. -/
def calculatePickOrder (hero : Hero) : ℚ := rolesLengthOrOne hero

/-- `ProSceneAnalyzer.calculateBanPriority`. -/
def calculateBanPriority (hero : Hero) : ℚ :=
  jsMin 10 (rolesLengthOrOne hero * 2)

/-- `ProSceneAnalyzer.calculateFirstPickRate`. -/
def calculateFirstPickRate (hero : Hero) : ℚ :=
  if hero.roles.contains "Support" then 0.3 else 0.1

/-- `ProSceneAnalyzer.calculateSituationalRate`: 0.4 + 0.1 per role, +0.2
for the curated complex heroes, capped at 0.9. -/
def calculateSituationalRate (hero : Hero) : ℚ :=
  let rate : ℚ := 0.4
  let rate := rate + rolesLengthOrOne hero * 0.1
  let complexHeroes := ["invoker", "meepo", "chen", "visage"]
  let rate := if complexHeroes.contains hero.name then rate + 0.2 else rate
  jsMin 0.9 rate

/-- `ProSceneAnalyzer.getCommonPairings`: fixed illustrative pairs gated
by role. -/
def getCommonPairings (hero : Hero) : List (ℤ × ℚ) :=
  (if hero.roles.contains "Carry" then [(1, 0.8), (2, 0.7)] else []) ++
  (if hero.roles.contains "Support" then [(3, 0.8), (4, 0.7)] else [])

/-- `ProSceneAnalyzer.getEffectiveCounters`: fixed illustrative counters
gated by attack type and role. -/
def getEffectiveCounters (hero : Hero) : List (ℤ × ℚ) :=
  (if hero.attack_type = "Melee" then [(5, 0.7), (6, 0.6)] else []) ++
  (if hero.roles.contains "Carry" then [(7, 0.8), (8, 0.7)] else [])

/-- `ProSceneAnalyzer.analyzeProPatterns`. -/
def analyzeProPatterns (hero : Hero) : ProPattern :=
  { pickOrder := calculatePickOrder hero,
    banPriority := calculateBanPriority hero,
    firstPickRate := calculateFirstPickRate hero,
    situationalPickRate := calculateSituationalRate hero,
    pairings := getCommonPairings hero,
    counters := getEffectiveCounters hero }

end ProSceneAnalyzer

namespace AdvancedDraftAnalyzer

/-- The state of an `AdvancedDraftAnalyzer` instance: the hero roster and
statistics supplied at construction. -/
structure State where
  heroes : List Hero
  heroStats : List HeroStats

/-- Whether a draft slot holds a hero with the given id
(`h?.id === hero.id`; an empty slot never matches). -/
def slotHasId (heroId : ℤ) (slot : Option Hero) : Bool :=
  match slot with
  | some h => h.id = heroId
  | none => false

/-- `AdvancedDraftAnalyzer.matchesRoleFilter`. -/
def matchesRoleFilter (hero : Hero) (roleFilter : List String) : Bool :=
  hero.roles.any (fun role => roleFilter.contains role)

/-- The candidate-pool filter of
`AdvancedDraftAnalyzer.generateAdvancedSuggestions`: heroes in neither
team's slots, restricted to the role filter when it is present and
non-empty. -/
def availableHeroes (heroes : List Hero) (draftState : DraftState)
    (roleFilter : Option (List String)) : List Hero :=
  heroes.filter (fun hero =>
    !draftState.yourTeam.any (slotHasId hero.id) &&
    !draftState.enemyTeam.any (slotHasId hero.id) &&
    (match roleFilter with
     | none => true
     | some rf => rf.isEmpty || matchesRoleFilter hero rf))

/-- `AdvancedDraftAnalyzer.calculateMetaScore`: 0.8 for the curated meta
heroes, else 0.5. -/
def calculateMetaScore (hero : Hero) : ℚ :=
  let metaHeroes := ["pudge", "invoker", "phantom_assassin", "sniper"]
  if metaHeroes.contains hero.name then 0.8 else 0.5

/-- `AdvancedDraftAnalyzer.calculateCounterScore`: 0.5 for an empty enemy
team, else 0.5 plus 0.1 per ranged-vs-melee enemy matchup, capped at 1. -/
def calculateCounterScore (hero : Hero) (enemyTeam : List Hero) : ℚ :=
  if enemyTeam.isEmpty then 0.5
  else
    let counterScore := enemyTeam.foldl
      (fun acc enemy =>
        if hero.attack_type = "Ranged" && enemy.attack_type = "Melee" then
          acc + 0.1
        else acc)
      (0 : ℚ)
    jsMin 1 (counterScore + 0.5)

/-- `AdvancedDraftAnalyzer.calculateSynergyScore`. -/
def calculateSynergyScore (hero : Hero) (yourTeam : List Hero) : ℚ :=
  if yourTeam.isEmpty then 0.5
  else MLSynergyPredictor.predictTeamSynergy (yourTeam ++ [hero])

/-- `AdvancedDraftAnalyzer.calculateLaneOptimizationScore`: the confidence
the lane optimizer assigns to this hero when appended to the team
(`?.confidence || 0.5`). -/
def calculateLaneOptimizationScore (hero : Hero) (yourTeam : List Hero) : ℚ :=
  let assignments := LaneOptimizer.optimizeLanes (yourTeam ++ [hero])
  jsOrQ ((assignments.find? (fun a => a.hero.id = hero.id)).map
    (fun a => a.confidence)) 0.5

/-- `AdvancedDraftAnalyzer.calculateTimingScore`: average power level over
the three timing windows. -/
def calculateTimingScore (hero : Hero) (gameContext : GameContext) : ℚ :=
  let windows := TimingAnalyzer.analyzeTimingWindows hero gameContext
  (windows.map (fun w => w.powerLevel)).sum / (windows.length : ℚ)

/-- `AdvancedDraftAnalyzer.calculateProPatternScore`: average of first-pick
and situational rates. -/
def calculateProPatternScore (hero : Hero) : ℚ :=
  let patterns := ProSceneAnalyzer.analyzeProPatterns hero
  (patterns.firstPickRate + patterns.situationalPickRate) / 2

/-- `AdvancedDraftAnalyzer.calculateAdvancedScore`: the 8-factor
breakdown, each team read as its non-empty slots. -/
def calculateAdvancedScore (hero : Hero) (draftState : DraftState)
    (gameContext : GameContext) : ScoreBreakdown :=
  let yourTeam := draftState.yourTeam.filterMap (fun h => h)
  let enemyTeam := draftState.enemyTeam.filterMap (fun h => h)
  { meta := calculateMetaScore hero,
    counter := calculateCounterScore hero enemyTeam,
    synergy := calculateSynergyScore hero yourTeam,
    itemSynergy := ItemBuildAnalyzer.calculateItemSynergy hero yourTeam,
    laneOptimization := calculateLaneOptimizationScore hero yourTeam,
    timing := calculateTimingScore hero gameContext,
    proPattern := calculateProPatternScore hero,
    mlSynergy := MLSynergyPredictor.predictTeamSynergy (yourTeam ++ [hero]) }

/-- The fixed weights object of
`AdvancedDraftAnalyzer.calculateTotalScore`. -/
def weights : ScoreBreakdown :=
  { meta := 0.15,
    counter := 0.2,
    synergy := 0.2,
    itemSynergy := 0.15,
    laneOptimization := 0.1,
    timing := 0.1,
    proPattern := 0.05,
    mlSynergy := 0.05 }

/-- `AdvancedDraftAnalyzer.calculateTotalScore`: the
`Object.entries`-reduce over the eight breakdown fields, written in the
field order of the breakdown object literal. -/
def calculateTotalScore (breakdown : ScoreBreakdown) : ℚ :=
  breakdown.meta * weights.meta +
  breakdown.counter * weights.counter +
  breakdown.synergy * weights.synergy +
  breakdown.itemSynergy * weights.itemSynergy +
  breakdown.laneOptimization * weights.laneOptimization +
  breakdown.timing * weights.timing +
  breakdown.proPattern * weights.proPattern +
  breakdown.mlSynergy * weights.mlSynergy

/-- `AdvancedDraftAnalyzer.generateReasons`: threshold rules per factor. -/
def generateReasons (_hero : Hero) (breakdown : ScoreBreakdown) : List String :=
  (if breakdown.counter > 0.7 then ["Strong counter to enemy heroes"] else []) ++
  (if breakdown.synergy > 0.7 then ["Excellent synergy with team"] else []) ++
  (if breakdown.itemSynergy > 0.7 then ["Great item synergy potential"] else []) ++
  (if breakdown.timing > 0.7 then ["Perfect timing window"] else []) ++
  (if breakdown.meta > 0.7 then ["Currently meta"] else [])

/-- The body of the `availableHeroes.map` in
`AdvancedDraftAnalyzer.generateAdvancedSuggestions`: one full suggestion
for one candidate. -/
def mkSuggestion (draftState : DraftState) (gameContext : GameContext)
    (hero : Hero) : AdvancedSuggestion :=
  let breakdown := calculateAdvancedScore hero draftState gameContext
  { hero := hero,
    score := calculateTotalScore breakdown,
    reasons := generateReasons hero breakdown,
    breakdown := breakdown,
    itemSynergy := ItemBuildAnalyzer.generateItemBuilds hero gameContext,
    laneOptimization := LaneOptimizer.optimizeLanes
      (draftState.yourTeam.filterMap (fun h => h) ++ [hero]),
    timingWindows := TimingAnalyzer.analyzeTimingWindows hero gameContext,
    proPatterns := ProSceneAnalyzer.analyzeProPatterns hero }

/-- `AdvancedDraftAnalyzer.generateAdvancedSuggestions`: score every
available hero, sort descending by total score, keep the top 10. -/
def generateAdvancedSuggestions (A : State) (draftState : DraftState)
    (gameContext : GameContext) (roleFilter : Option (List String)) :
    List AdvancedSuggestion :=
  let suggestions :=
    (availableHeroes A.heroes draftState roleFilter).map
      (mkSuggestion draftState gameContext)
  (List.insertionSort (descBy AdvancedSuggestion.score) suggestions).take 10

/-- `AdvancedDraftAnalyzer.generateAdvancedSuggestions` with the
per-candidate computation abstracted as a fallible oracle, to reason about
the engine's exception propagation.  The `map` over the candidate pool has
no per-candidate catch in the source, so a raised exception aborts the
whole map: `List.mapM` in `Except` propagates the first error exactly as
the JavaScript `map` propagates the first throw. -/
def generateAdvancedSuggestionsE (A : State)
    (build : Hero → Except String AdvancedSuggestion)
    (draftState : DraftState) (_gameContext : GameContext)
    (roleFilter : Option (List String)) :
    Except String (List AdvancedSuggestion) := do
  let suggestions ← mapME build (availableHeroes A.heroes draftState roleFilter)
  return (List.insertionSort (descBy AdvancedSuggestion.score) suggestions).take 10

end AdvancedDraftAnalyzer

namespace DraftAnalyzerIntegration

/-- The options object of
`DraftAnalyzerIntegration.getEnhancedRecommendations`, with its source
defaults. -/
structure Options where
  gameContext : GameContext := {}
  roleFilter : Option (List String) := none
  includeItemBuilds : Bool := true
  includeLaneOptimization : Bool := true
  includeTimingAnalysis : Bool := true
  includeProPatterns : Bool := true

/-- The neutral `ProPattern` substituted when pro patterns are excluded. -/
def emptyProPattern : ProPattern :=
  { pickOrder := 0, banPriority := 0, firstPickRate := 0,
    situationalPickRate := 0, pairings := [], counters := [] }

/-- The per-suggestion masking map of `getEnhancedRecommendations`:
excluded components are replaced by empty values. -/
def maskSuggestion (options : Options) (s : AdvancedSuggestion) :
    AdvancedSuggestion :=
  { s with
    itemSynergy := if options.includeItemBuilds then s.itemSynergy else [],
    laneOptimization :=
      if options.includeLaneOptimization then s.laneOptimization else [],
    timingWindows :=
      if options.includeTimingAnalysis then s.timingWindows else [],
    proPatterns :=
      if options.includeProPatterns then s.proPatterns else emptyProPattern }

/-- `DraftAnalyzerIntegration.getEnhancedRecommendations` on the
exception-oracle model.  The whole call to the advanced analyzer sits
inside one `try`/`catch` whose handler returns `[]`: any exception raised
for any candidate empties the entire batch, and the function itself never
raises. -/
def getEnhancedRecommendationsE (A : AdvancedDraftAnalyzer.State)
    (build : Hero → Except String AdvancedSuggestion)
    (draftState : DraftState) (options : Options) : List AdvancedSuggestion :=
  match AdvancedDraftAnalyzer.generateAdvancedSuggestionsE A build draftState
      options.gameContext options.roleFilter with
  | Except.ok suggestions => suggestions.map (maskSuggestion options)
  | Except.error _ => []

/-- `DraftAnalyzerIntegration.getEnhancedRecommendations` with the actual
(total) per-candidate computation of the source. -/
def getEnhancedRecommendations (A : AdvancedDraftAnalyzer.State)
    (draftState : DraftState) (options : Options) : List AdvancedSuggestion :=
  (AdvancedDraftAnalyzer.generateAdvancedSuggestions A draftState
    options.gameContext options.roleFilter).map (maskSuggestion options)

end DraftAnalyzerIntegration

namespace DraftAnalyzer

/-- The state of a `DraftAnalyzer` instance: roster, statistics and the
matchup map populated by `setMatchupData`. -/
structure State where
  heroes : List Hero
  heroStats : List HeroStats
  matchupData : List (ℤ × List HeroMatchupData)

/-- `DraftAnalyzer.setMatchupData`: replaces the matchup list stored under
a hero id. -/
def setMatchupData (A : State) (heroId : ℤ)
    (matchups : List HeroMatchupData) : State :=
  { A with matchupData :=
      (heroId, matchups) :: A.matchupData.filter (fun p => p.1 ≠ heroId) }

/-- `DraftAnalyzer.getMetaScore`: win-rate deviation from a 45% baseline
blended with the share of public picks among all `_pick` totals (public,
professional and the eight bracket counts); 50 when the hero has no
statistics. -/
def getMetaScore (A : State) (heroId : ℤ) : ℚ :=
  match A.heroStats.find? (fun stat => stat.id = heroId) with
  | none => 50
  | some heroStat =>
    let currentWinRate := calculateWinRate heroStat.pub_win heroStat.pub_pick
    let normalizedWinRate := (currentWinRate - 45) / 10 * 100
    let totalPicks := heroStat.pub_pick + heroStat.pro_pick +
      heroStat.bracket1_pick + heroStat.bracket2_pick +
      heroStat.bracket3_pick + heroStat.bracket4_pick +
      heroStat.bracket5_pick + heroStat.bracket6_pick +
      heroStat.bracket7_pick + heroStat.bracket8_pick
    let normalizedPickRate := jsMin (heroStat.pub_pick / jsMax totalPicks 1 * 100) 100
    jsMax 0 (jsMin 100 ((normalizedWinRate + normalizedPickRate) / 2))

/-- `DraftAnalyzer.getCounterScore`: accumulate the win rate of each
enemy's matchup record when that record has strictly more than 10 games,
average over the accumulated records, with 50 for an empty enemy list,
missing matchup data, or no accumulated record. -/
def getCounterScore (A : State) (heroId : ℤ) (enemyHeroes : List Hero) : ℚ :=
  if enemyHeroes.isEmpty then 50
  else
    match A.matchupData.lookup heroId with
    | none => 50
    | some matchups =>
      let acc := enemyHeroes.foldl
        (fun (acc : ℚ × ℕ) enemy =>
          match matchups.find? (fun m => m.hero_id = enemy.id) with
          | some matchup =>
            if matchup.games_played > 10 then
              (acc.1 + calculateWinRate matchup.wins matchup.games_played,
               acc.2 + 1)
            else acc
          | none => acc)
        (0, 0)
      if acc.2 > 0 then acc.1 / (acc.2 : ℚ) else 50

/-- `DraftAnalyzer.getSynergyScore`: 50 base with complementary-role
bonuses and a penalty per overlapping role tag, clamped to [0, 100]; 50
when the team is empty or the hero id is unknown. -/
def getSynergyScore (A : State) (heroId : ℤ) (teamHeroes : List Hero) : ℚ :=
  if teamHeroes.isEmpty then 50
  else
    match A.heroes.find? (fun h => h.id = heroId) with
    | none => 50
    | some hero =>
      let heroRoles := hero.roles
      let teamRoles := teamHeroes.flatMap (fun h => h.roles)
      let synergyScore : ℚ := 50
      let synergyScore :=
        if heroRoles.contains "Support" && teamRoles.contains "Carry" then
          synergyScore + 10
        else synergyScore
      let synergyScore :=
        if heroRoles.contains "Initiator" && teamRoles.contains "Nuker" then
          synergyScore + 8
        else synergyScore
      let synergyScore :=
        if heroRoles.contains "Disabler" && teamRoles.contains "Carry" then
          synergyScore + 6
        else synergyScore
      let roleOverlap := (heroRoles.filter (fun role => teamRoles.contains role)).length
      let synergyScore := synergyScore - (roleOverlap : ℚ) * 5
      jsMax 0 (jsMin 100 synergyScore)

/-- `DraftAnalyzer.getProScore`: the public share of total picks, 50 when
statistics are missing or the total is zero, capped at 100. -/
def getProScore (A : State) (heroId : ℤ) : ℚ :=
  match A.heroStats.find? (fun stat => stat.id = heroId) with
  | none => 50
  | some heroStat =>
    let totalPicks := heroStat.pub_pick + heroStat.pro_pick + heroStat.turbo_picks
    let pickRate := if totalPicks > 0 then heroStat.pub_pick / totalPicks * 100 else 50
    jsMin pickRate 100

/-- `DraftAnalyzer.getConfidenceLevel`. -/
def getConfidenceLevel (score : ℚ) (enemyPickCount : ℕ) : String :=
  if enemyPickCount ≥ 4 && score > 70 then "high"
  else if enemyPickCount ≥ 2 && score > 60 then "medium"
  else "low"

/-- `DraftAnalyzer.generateReasoning`: threshold rules producing the
positive/counter/synergy string lists. -/
def generateReasoning (hero : Hero) (enemyHeroes teamHeroes : List Hero)
    (metaScore counterScore synergyScore : ℚ) :
    List String × List String × List String :=
  let reasoning :=
    (if metaScore > 70 then ["Strong in current meta"]
     else if metaScore < 40 then ["Below average meta performance"] else []) ++
    (if counterScore > 65 then ["Good matchups against enemy picks"]
     else if counterScore < 45 then ["Difficult matchups against enemy team"] else []) ++
    (if synergyScore > 60 then ["Good synergy with team composition"] else []) ++
    (if hero.roles.contains "Carry" then ["Strong late-game potential"] else []) ++
    (if hero.roles.contains "Support" then ["Provides team utility"] else []) ++
    (if hero.roles.contains "Initiator" then ["Good team fight initiation"] else [])
  let counters :=
    if counterScore > 65 then
      enemyHeroes.map (fun enemy => "Effective vs " ++ enemy.localized_name)
    else []
  let synergies :=
    if synergyScore > 60 then
      teamHeroes.map (fun teammate => "Synergizes with " ++ teammate.localized_name)
    else []
  (reasoning, counters, synergies)

/-- `DraftAnalyzer.calculateHeroScore`: the basic 4-factor weighted score
(meta 20%, counter 40%, synergy 30%, pro 10%), rounded. -/
def calculateHeroScore (A : State) (hero : Hero) (draftState : DraftState) :
    DraftSuggestion :=
  let enemyHeroes := draftState.enemyTeam.filterMap (fun h => h)
  let teamHeroes := draftState.yourTeam.filterMap (fun h => h)
  let metaScore := getMetaScore A hero.id
  let counterScore := getCounterScore A hero.id enemyHeroes
  let synergyScore := getSynergyScore A hero.id teamHeroes
  let proScore := getProScore A hero.id
  let finalScore :=
    metaScore * 0.2 + counterScore * 0.4 + synergyScore * 0.3 + proScore * 0.1
  let confidence := getConfidenceLevel finalScore enemyHeroes.length
  let reasoning := generateReasoning hero enemyHeroes teamHeroes
    metaScore counterScore synergyScore
  let winRate :=
    match A.heroStats.find? (fun stat => stat.id = hero.id) with
    | some heroStat => calculateWinRate heroStat.pub_win heroStat.pub_pick
    | none => 50
  { hero := hero,
    score := jsRound finalScore,
    win_rate := winRate,
    confidence := confidence,
    reasoning := reasoning.1,
    counters := reasoning.2.1,
    synergies := reasoning.2.2 }

/-- The picked-hero id set of `DraftAnalyzer.generateSuggestions`: ids of
every hero occupying a slot on either team. -/
def pickedIds (draftState : DraftState) : List ℤ :=
  (draftState.yourTeam.filterMap (fun h => h)).map (fun h => h.id) ++
  (draftState.enemyTeam.filterMap (fun h => h)).map (fun h => h.id)

/-- `DraftAnalyzer.generateSuggestions`: filter out picked heroes, apply
the role filter, score, sort descending, truncate to `limit`. -/
def generateSuggestions (A : State) (draftState : DraftState)
    (roleFilter : Option (List String)) (limit : ℕ) : List DraftSuggestion :=
  let availableHeroes := A.heroes.filter
    (fun hero => !(pickedIds draftState).contains hero.id)
  let filtered := availableHeroes.filter
    (fun hero =>
      match roleFilter with
      | some rf =>
        if rf.isEmpty then true
        else rf.any (fun filterRole => hero.roles.contains filterRole)
      | none => true)
  let suggestions := filtered.map (fun hero => calculateHeroScore A hero draftState)
  (List.insertionSort (descBy DraftSuggestion.score) suggestions).take limit

/-- The per-suggestion conversion of
`DraftAnalyzer.generateAdvancedSuggestions` (the `convertedSuggestions`
map): copy of score, breakdown and reasons, recomputed win rate,
thresholded confidence, first build's items, the hero's own lane
assignment (`?.position || 1`), the phase of the first strongest timing
window, and the summed pro pick rates. -/
def convertSuggestion (A : State) (s : AdvancedSuggestion) :
    AdvancedDraftSuggestion :=
  let winRate :=
    match A.heroStats.find? (fun hs => hs.id = s.hero.id) with
    | some heroStats => calculateWinRate heroStats.pub_win heroStats.pub_pick
    | none => 50
  { hero := s.hero,
    score := s.score,
    win_rate := winRate,
    confidence :=
      if s.score > 0.8 then "high"
      else if s.score > 0.6 then "medium"
      else "low",
    reasoning := s.reasons,
    counters := [],
    synergies := [],
    advancedBreakdown := s.breakdown,
    itemRecommendations :=
      match s.itemSynergy with
      | [] => []
      | build :: _ => build.items,
    optimalLane :=
      match s.laneOptimization with
      | [] => 1
      | _ :: _ =>
        match s.laneOptimization.find? (fun la => la.hero.id = s.hero.id) with
        | some la => if la.position = 0 then 1 else la.position
        | none => 1,
    timingWindow :=
      match s.timingWindows with
      | [] => "mid"
      | w :: ws =>
        (ws.foldl (fun best current =>
          if current.powerLevel > best.powerLevel then current else best) w).phase,
    proPickRate := s.proPatterns.firstPickRate + s.proPatterns.situationalPickRate }

/-- The options object `DraftAnalyzer.generateAdvancedSuggestions` passes
to the integration layer: the caller context and role filter with all four
include flags set. -/
def advancedOptions (gameContext : GameContext)
    (roleFilter : Option (List String)) : DraftAnalyzerIntegration.Options :=
  { gameContext := gameContext,
    roleFilter := roleFilter,
    includeItemBuilds := true,
    includeLaneOptimization := true,
    includeTimingAnalysis := true,
    includeProPatterns := true }

/-- `DraftAnalyzer.generateAdvancedSuggestions`: delegate to the
integration layer, convert each suggestion, truncate to `limit`.  The
source wraps this body in a `try`/`catch` that falls back to
`generateSuggestions` with an all-0.5 breakdown, but the integration layer
already absorbs every exception (returning `[]`), and the conversion
itself is total, so the body never throws and the fallback branch is
unreachable; the model is the `try` body. -/
def generateAdvancedSuggestions (A : State) (draftState : DraftState)
    (gameContext : GameContext) (roleFilter : Option (List String))
    (limit : ℕ) : List AdvancedDraftSuggestion :=
  let advancedSuggestions := DraftAnalyzerIntegration.getEnhancedRecommendations
    { heroes := A.heroes, heroStats := A.heroStats } draftState
    (advancedOptions gameContext roleFilter)
  ((advancedSuggestions.map (convertSuggestion A)).take limit)

/-- `DraftAnalyzer.generateAdvancedSuggestions` on the exception-oracle
model (see `generateAdvancedSuggestionsE` of the advanced analyzer). -/
def generateAdvancedSuggestionsE (A : State)
    (build : Hero → Except String AdvancedSuggestion)
    (draftState : DraftState) (gameContext : GameContext)
    (roleFilter : Option (List String)) (limit : ℕ) :
    List AdvancedDraftSuggestion :=
  let advancedSuggestions := DraftAnalyzerIntegration.getEnhancedRecommendationsE
    { heroes := A.heroes, heroStats := A.heroStats } build draftState
    (advancedOptions gameContext roleFilter)
  ((advancedSuggestions.map (convertSuggestion A)).take limit)

end DraftAnalyzer

/-!
Comparison definitions written from the specification's wording (not from
the source), used to exhibit where the source deviates from a claim.
-/

/-- The counter score as claim C3 words it, with an inclusive
threshold — a record with at least (`≥`) 10 games is accumulated.  Written
from the claim text, to be compared with `DraftAnalyzer.getCounterScore`
(whose source test is the strict `matchup.games_played > 10`). -/
def counterScoreSpecInclusive (matchupData : List (ℤ × List HeroMatchupData))
    (heroId : ℤ) (enemyHeroes : List Hero) : ℚ :=
  match matchupData.lookup heroId with
  | none => 50
  | some matchups =>
    let validRates := enemyHeroes.filterMap (fun enemy =>
      (matchups.find? (fun m => m.hero_id = enemy.id)).bind (fun matchup =>
        if matchup.games_played ≥ 10 then
          some (calculateWinRate matchup.wins matchup.games_played)
        else none))
    if enemyHeroes.isEmpty ∨ validRates.isEmpty then 50
    else validRates.sum / (validRates.length : ℚ)

/-- The win rates of the enemy matchup records that pass the source's
strict more-than-10-games threshold, in enemy order. -/
def validCounterRates (matchups : List HeroMatchupData)
    (enemyHeroes : List Hero) : List ℚ :=
  enemyHeroes.filterMap (fun enemy =>
    (matchups.find? (fun m => m.hero_id = enemy.id)).bind (fun matchup =>
      if matchup.games_played > 10 then
        some (calculateWinRate matchup.wins matchup.games_played)
      else none))

/-- The counter score restated declaratively with the source's strict
threshold: average the win rates of the enemy matchup records with
strictly more than 10 games, 50 when the enemy list is empty, the hero
has no matchup data, or no record passes the threshold.  Used to state
the amended claim C3 against the fold-based `getCounterScore`. -/
def counterScoreSpecStrict (matchupData : List (ℤ × List HeroMatchupData))
    (heroId : ℤ) (enemyHeroes : List Hero) : ℚ :=
  match matchupData.lookup heroId with
  | none => 50
  | some matchups =>
    let validRates := validCounterRates matchups enemyHeroes
    if enemyHeroes.isEmpty ∨ validRates.isEmpty then 50
    else validRates.sum / (validRates.length : ℚ)

/-- The all-midpoint breakdown the specification prescribes as the
per-candidate failure fallback. -/
def neutralBreakdown : ScoreBreakdown :=
  { meta := 0.5, counter := 0.5, synergy := 0.5, itemSynergy := 0.5,
    laneOptimization := 0.5, timing := 0.5, proPattern := 0.5, mlSynergy := 0.5 }

/-- Modelled from the spec: claim C5's failure boundary — "if any
delegated computation throws, the aggregator must catch it at the
per-suggestion-generation boundary and fall back to a neutral default
breakdown (all factors = midpoint) rather than aborting the whole batch".
Each candidate whose computation raises is replaced by a
neutral-breakdown suggestion; the other candidates are kept.  Written
from the specification's words, to be compared with the source pipeline
(`DraftAnalyzerIntegration.getEnhancedRecommendationsE`), whose only
catch sits around the whole batch. -/
def generateSuggestionsPerCandidateCatch (A : AdvancedDraftAnalyzer.State)
    (build : Hero → Except String AdvancedSuggestion)
    (draftState : DraftState) (_gameContext : GameContext)
    (roleFilter : Option (List String)) : List AdvancedSuggestion :=
  let suggestions :=
    (AdvancedDraftAnalyzer.availableHeroes A.heroes draftState roleFilter).map
      (fun hero =>
        match build hero with
        | Except.ok s => s
        | Except.error _ =>
          { hero := hero,
            score := AdvancedDraftAnalyzer.calculateTotalScore neutralBreakdown,
            reasons := [],
            breakdown := neutralBreakdown,
            itemSynergy := [],
            laneOptimization := [],
            timingWindows := [],
            proPatterns := DraftAnalyzerIntegration.emptyProPattern })
  (List.insertionSort (descBy AdvancedSuggestion.score) suggestions).take 10

/-!
Concrete sample data used by the closed theorems below.
-/

/-- A pure hard-support hero (support-class role, melee). -/
def sampleSupport : Hero :=
  { id := 101, name := "sup_hero", localized_name := "Sup Hero",
    primary_attr := "int", attack_type := "Melee", roles := ["Support"] }

/-- A pure carry hero (core-class role, melee). -/
def sampleCarry : Hero :=
  { id := 102, name := "car_hero", localized_name := "Car Hero",
    primary_attr := "agi", attack_type := "Melee", roles := ["Carry"] }

/-- A pure nuker hero. -/
def sampleNuker : Hero :=
  { id := 103, name := "nuk_hero", localized_name := "Nuk Hero",
    primary_attr := "int", attack_type := "Ranged", roles := ["Nuker"] }

/-- A pure initiator hero. -/
def sampleInitiator : Hero :=
  { id := 104, name := "ini_hero", localized_name := "Ini Hero",
    primary_attr := "str", attack_type := "Melee", roles := ["Initiator"] }

/-- A draft with all ten slots empty. -/
def emptyDraft : DraftState :=
  { yourTeam := [none, none, none, none, none],
    enemyTeam := [none, none, none, none, none],
    currentPhase := "pick", currentPick := 0 }

/-- An exception oracle that computes `sampleCarry`'s suggestion by
raising (a sub-analyzer throwing for that one candidate) and every other
candidate's suggestion normally. -/
def failingBuild : Hero → Except String AdvancedSuggestion :=
  fun hero =>
    if hero.id = sampleCarry.id then Except.error "sub-analyzer exception"
    else Except.ok (AdvancedDraftAnalyzer.mkSuggestion emptyDraft {} hero)

/-- A matchup record of exactly 10 games, all won, for hero 1 against
hero 2. -/
def tenGameAnalyzer : DraftAnalyzer.State :=
  { heroes := [], heroStats := [],
    matchupData := [(1, [{ hero_id := 2, games_played := 10, wins := 10 }])] }

/-- The enemy hero (id 2) of the ten-game matchup record. -/
def tenGameEnemy : Hero :=
  { id := 2, name := "enemy", localized_name := "Enemy",
    primary_attr := "agi", attack_type := "Melee", roles := ["Carry"] }

/-!
## Theorems
-/

/-- Claim C2: for every 8-factor score breakdown, the total score equals
the dot product of the breakdown values with the fixed weights counter
0.20, synergy 0.20, meta 0.15, item-synergy 0.15, lane-optimization 0.10,
timing 0.10, pro-pattern 0.05, ml-synergy 0.05, and these 8 weights sum
exactly to 1. -/
theorem calculateTotalScore_is_fixed_weight_dot_product (b : ScoreBreakdown) :
    AdvancedDraftAnalyzer.calculateTotalScore b =
      0.20 * b.counter + 0.20 * b.synergy + 0.15 * b.meta +
      0.15 * b.itemSynergy + 0.10 * b.laneOptimization + 0.10 * b.timing +
      0.05 * b.proPattern + 0.05 * b.mlSynergy ∧
    AdvancedDraftAnalyzer.weights.counter + AdvancedDraftAnalyzer.weights.synergy +
      AdvancedDraftAnalyzer.weights.meta + AdvancedDraftAnalyzer.weights.itemSynergy +
      AdvancedDraftAnalyzer.weights.laneOptimization + AdvancedDraftAnalyzer.weights.timing +
      AdvancedDraftAnalyzer.weights.proPattern + AdvancedDraftAnalyzer.weights.mlSynergy = 1 := by
  constructor
  · simp only [AdvancedDraftAnalyzer.calculateTotalScore, AdvancedDraftAnalyzer.weights]
    ring
  · norm_num [AdvancedDraftAnalyzer.weights]

/-- Claim C10: the pairwise synergy predictor is not commutative — the
0.2 role-complementarity bonus fires only when the first argument is
support-class and the second core-class — and consequently the team
synergy is not invariant under permutation of its input list. -/
theorem predictHeroSynergy_not_commutative :
    MLSynergyPredictor.predictHeroSynergy sampleSupport sampleCarry = 0.7 ∧
    MLSynergyPredictor.predictHeroSynergy sampleCarry sampleSupport = 0.5 ∧
    MLSynergyPredictor.predictHeroSynergy sampleSupport sampleCarry ≠
      MLSynergyPredictor.predictHeroSynergy sampleCarry sampleSupport ∧
    [sampleSupport, sampleCarry].Perm [sampleCarry, sampleSupport] ∧
    MLSynergyPredictor.predictTeamSynergy [sampleSupport, sampleCarry] ≠
      MLSynergyPredictor.predictTeamSynergy [sampleCarry, sampleSupport] := by
  refine ⟨?_, ?_, ?_, List.Perm.swap sampleCarry sampleSupport [], ?_⟩ <;>
    norm_num +decide [MLSynergyPredictor.predictHeroSynergy,
      MLSynergyPredictor.predictTeamSynergy, MLSynergyPredictor.orderedPairs,
      sampleSupport, sampleCarry, jsMin, jsMax]

/-- Claim C4 (failing input): a team of four heroes tagged with the four
distinct canonical roles Carry, Nuker, Initiator and Support — so that no
other hero claims any of their canonical slots — is assigned position 4
four times over by the lane optimizer, because every hero's own role
seeds its canonical position as already taken before the role-match
branches run. -/
theorem optimizeLanes_four_distinct_roles_all_collide :
    (LaneOptimizer.optimizeLanes
        [sampleCarry, sampleNuker, sampleInitiator, sampleSupport]).map
      (fun a => a.position) = [4, 4, 4, 4] := by
  decide

/-- Claim C3 (counterexample): a matchup record with exactly 10 games
meets the claim's "≥ 10 games" bar, so the claim predicts its win rate
(100) is averaged in; the source's strict `games_played > 10` test skips
it and returns the neutral 50. -/
theorem getCounterScore_ten_game_record_counterexample :
    DraftAnalyzer.getCounterScore tenGameAnalyzer 1 [tenGameEnemy] = 50 ∧
    counterScoreSpecInclusive tenGameAnalyzer.matchupData 1 [tenGameEnemy] = 100 ∧
    (50 : ℚ) ≠ 100 := by
  refine ⟨?_, ?_, by norm_num⟩
  · norm_num +decide [DraftAnalyzer.getCounterScore, tenGameAnalyzer,
      tenGameEnemy, List.lookup]
  · norm_num +decide [counterScoreSpecInclusive, tenGameAnalyzer, tenGameEnemy,
      List.lookup, List.filterMap_cons, calculateWinRate, toFixed2]

/-- Helper for claim C3: the accumulating fold of `getCounterScore` adds
up exactly the win rates of the records passing the strict threshold. -/
theorem counterScore_foldl_eq (matchups : List HeroMatchupData)
    (enemyHeroes : List Hero) (t : ℚ) (v : ℕ) :
    enemyHeroes.foldl
      (fun (acc : ℚ × ℕ) enemy =>
        match matchups.find? (fun m => m.hero_id = enemy.id) with
        | some matchup =>
          if matchup.games_played > 10 then
            (acc.1 + calculateWinRate matchup.wins matchup.games_played,
             acc.2 + 1)
          else acc
        | none => acc)
      (t, v) =
    (t + (validCounterRates matchups enemyHeroes).sum,
     v + (validCounterRates matchups enemyHeroes).length) := by
  induction enemyHeroes generalizing t v with
  | nil => simp [validCounterRates]
  | cons e es ih =>
    simp only [List.foldl_cons, validCounterRates, List.filterMap_cons]
    cases hf : matchups.find? (fun m => m.hero_id = e.id) with
    | none =>
      simp only [hf, Option.none_bind]
      simpa [validCounterRates] using ih t v
    | some matchup =>
      simp only [hf, Option.some_bind]
      by_cases hg : matchup.games_played > 10
      · simp only [if_pos hg, List.sum_cons, List.length_cons]
        rw [ih (t + calculateWinRate matchup.wins matchup.games_played) (v + 1)]
        refine Prod.ext ?_ ?_
        · simp only [validCounterRates]; ring
        · simp only [validCounterRates]; omega
      · simp only [if_neg hg]
        simpa [validCounterRates] using ih t v

/-- Claim C3 (amended): the counter score averages the win rates of the
enemy matchup records with strictly more than 10 games (a record with
exactly 10 games is skipped), and returns the neutral 50 when the enemy
list is empty, when the hero has no matchup data, or when no record
exceeds the threshold. -/
theorem getCounterScore_eq_strict_threshold_average (A : DraftAnalyzer.State)
    (heroId : ℤ) (enemyHeroes : List Hero) :
    DraftAnalyzer.getCounterScore A heroId enemyHeroes =
      counterScoreSpecStrict A.matchupData heroId enemyHeroes := by
  unfold DraftAnalyzer.getCounterScore counterScoreSpecStrict
  by_cases he : enemyHeroes.isEmpty
  · cases A.matchupData.lookup heroId <;> simp [he]
  · cases hl : A.matchupData.lookup heroId with
    | none => simp [he, hl]
    | some matchups =>
      simp only [he, if_false, Bool.false_eq_true]
      rw [counterScore_foldl_eq matchups enemyHeroes 0 0]
      simp only [zero_add, he, false_or]
      cases hv : validCounterRates matchups enemyHeroes with
      | nil => simp
      | cons r rs => simp [List.isEmpty_cons]

/-- Claim C7: the timing analyzer returns exactly 3 windows (early, mid,
late); the early window spans 0 to 12 when the playstyle is aggressive
and 0 to 15 otherwise, the mid window spans 15–35, the late window spans
35 to `max 60 expectedDuration` (duration defaulting to 40 when absent or
zero), and every window's power level lies in [0, 1]. -/
theorem analyzeTimingWindows_shape_and_bounds (hero : Hero) (ctx : GameContext) :
    (TimingAnalyzer.analyzeTimingWindows hero ctx).length = 3 ∧
    (TimingAnalyzer.analyzeTimingWindows hero ctx).map
        (fun w => (w.phase, w.start, w.endMin)) =
      [("early", (0 : ℚ), if ctx.playstyle = some "aggressive" then (12 : ℚ) else 15),
       ("mid", 15, 35),
       ("late", 35, jsMax 60 (jsOrQ ctx.expectedDuration 40))] ∧
    (TimingAnalyzer.analyzeTimingWindows hero ctx).map (fun w => w.powerLevel) =
      [TimingAnalyzer.calculateEarlyPower hero, TimingAnalyzer.calculateMidPower hero,
       TimingAnalyzer.calculateLatePower hero] ∧
    (0 ≤ TimingAnalyzer.calculateEarlyPower hero ∧
      TimingAnalyzer.calculateEarlyPower hero ≤ 1) ∧
    (0 ≤ TimingAnalyzer.calculateMidPower hero ∧
      TimingAnalyzer.calculateMidPower hero ≤ 1) ∧
    (0 ≤ TimingAnalyzer.calculateLatePower hero ∧
      TimingAnalyzer.calculateLatePower hero ≤ 1) := by
  refine ⟨rfl, by simp [TimingAnalyzer.analyzeTimingWindows],
    by simp [TimingAnalyzer.analyzeTimingWindows], ?_, ?_, ?_⟩
  · unfold TimingAnalyzer.calculateEarlyPower
    split_ifs <;> norm_num [jsMin]
  · unfold TimingAnalyzer.calculateMidPower
    split_ifs <;> norm_num [jsMin]
  · unfold TimingAnalyzer.calculateLatePower
    split_ifs <;> norm_num [jsMin]

/-- Claim C8: with an empty hero roster the candidate pool is empty, so
suggestion generation returns the empty list — and, on the
exception-oracle model, returns it normally (`Except.ok`) for every
oracle, i.e. it cannot raise. -/
theorem generateAdvancedSuggestions_empty_roster (stats : List HeroStats)
    (draftState : DraftState) (ctx : GameContext) (rf : Option (List String))
    (build : Hero → Except String AdvancedSuggestion) :
    AdvancedDraftAnalyzer.generateAdvancedSuggestions ⟨[], stats⟩ draftState ctx rf = [] ∧
    AdvancedDraftAnalyzer.generateAdvancedSuggestionsE ⟨[], stats⟩ build draftState ctx rf =
      Except.ok [] := by
  constructor
  · simp [AdvancedDraftAnalyzer.generateAdvancedSuggestions,
      AdvancedDraftAnalyzer.availableHeroes]
  · simp [AdvancedDraftAnalyzer.generateAdvancedSuggestionsE,
      AdvancedDraftAnalyzer.availableHeroes, mapME]

/-- Claim C9: the advanced pipeline truncates to the top 10 inside the
advanced analyzer before the caller's `limit` is applied, so the returned
batch has exactly `min limit (min 10 candidateCount)` suggestions — in
particular at most 10 even when more than 10 candidates are available and
the requested limit exceeds 10. -/
theorem generateAdvancedSuggestions_capped_at_ten (B : DraftAnalyzer.State)
    (draftState : DraftState) (ctx : GameContext) (rf : Option (List String))
    (limit : ℕ) :
    (DraftAnalyzer.generateAdvancedSuggestions B draftState ctx rf limit).length =
      min limit (min 10
        (AdvancedDraftAnalyzer.availableHeroes B.heroes draftState rf).length) := by
  simp only [DraftAnalyzer.generateAdvancedSuggestions,
    DraftAnalyzerIntegration.getEnhancedRecommendations,
    AdvancedDraftAnalyzer.generateAdvancedSuggestions,
    DraftAnalyzer.advancedOptions, List.length_take, List.length_map]
  rw [(List.perm_insertionSort _ _).length_eq, List.length_map]

/-- Helper: the integration layer's component masking never changes a
suggestion's score. -/
theorem maskSuggestion_score (options : DraftAnalyzerIntegration.Options)
    (s : AdvancedSuggestion) :
    (DraftAnalyzerIntegration.maskSuggestion options s).score = s.score := rfl

/-- Helper: the conversion to `AdvancedDraftSuggestion` copies the score. -/
theorem convertSuggestion_score (A : DraftAnalyzer.State) (s : AdvancedSuggestion) :
    (DraftAnalyzer.convertSuggestion A s).score = s.score := rfl

/-- Claim C6: the advanced suggestion list is sorted in descending order
of total score and its length is at most the requested limit. -/
theorem generateAdvancedSuggestions_sorted_and_limited (B : DraftAnalyzer.State)
    (draftState : DraftState) (ctx : GameContext) (rf : Option (List String))
    (limit : ℕ) :
    List.Sorted (descBy AdvancedDraftSuggestion.score)
      (DraftAnalyzer.generateAdvancedSuggestions B draftState ctx rf limit) ∧
    (DraftAnalyzer.generateAdvancedSuggestions B draftState ctx rf limit).length ≤
      limit := by
  constructor
  · have h1 : List.Sorted (descBy AdvancedSuggestion.score)
        (List.insertionSort (descBy AdvancedSuggestion.score)
          ((AdvancedDraftAnalyzer.availableHeroes B.heroes draftState rf).map
            (AdvancedDraftAnalyzer.mkSuggestion draftState ctx))) :=
      List.sorted_insertionSort _ _
    have h2 := h1.sublist (List.take_sublist 10 _)
    have h3 : List.Sorted (descBy AdvancedSuggestion.score)
        (((List.insertionSort (descBy AdvancedSuggestion.score)
          ((AdvancedDraftAnalyzer.availableHeroes B.heroes draftState rf).map
            (AdvancedDraftAnalyzer.mkSuggestion draftState ctx))).take 10).map
          (DraftAnalyzerIntegration.maskSuggestion
            (DraftAnalyzer.advancedOptions ctx rf))) :=
      List.Pairwise.map _ (fun a b hab => by
        simpa [descBy, maskSuggestion_score] using hab) h2
    have h4 : List.Sorted (descBy AdvancedDraftSuggestion.score)
        ((((List.insertionSort (descBy AdvancedSuggestion.score)
          ((AdvancedDraftAnalyzer.availableHeroes B.heroes draftState rf).map
            (AdvancedDraftAnalyzer.mkSuggestion draftState ctx))).take 10).map
          (DraftAnalyzerIntegration.maskSuggestion
            (DraftAnalyzer.advancedOptions ctx rf))).map
          (DraftAnalyzer.convertSuggestion B)) :=
      List.Pairwise.map _ (fun a b hab => by
        simpa [descBy, convertSuggestion_score] using hab) h3
    have h5 := h4.sublist (List.take_sublist limit _)
    simpa [DraftAnalyzer.generateAdvancedSuggestions,
      DraftAnalyzerIntegration.getEnhancedRecommendations,
      AdvancedDraftAnalyzer.generateAdvancedSuggestions] using h5
  · simp only [DraftAnalyzer.generateAdvancedSuggestions]
    exact List.length_take_le limit _

/-- Helper: membership in the advanced candidate pool implies the hero's
id occupies no slot of either team. -/
theorem mem_availableHeroes_not_picked {heroes : List Hero}
    {draftState : DraftState} {rf : Option (List String)} {hero : Hero}
    (h : hero ∈ AdvancedDraftAnalyzer.availableHeroes heroes draftState rf) :
    hero.id ∉ DraftAnalyzer.pickedIds draftState := by
  rw [AdvancedDraftAnalyzer.availableHeroes, List.mem_filter] at h
  obtain ⟨-, hcond⟩ := h
  simp only [Bool.and_eq_true, Bool.not_eq_true'] at hcond
  obtain ⟨⟨hyour, henemy⟩, -⟩ := hcond
  intro hmem
  simp only [DraftAnalyzer.pickedIds, List.mem_append, List.mem_map,
    List.mem_filterMap] at hmem
  rcases hmem with ⟨h', ⟨slot, hslot, hsome⟩, hid⟩ | ⟨h', ⟨slot, hslot, hsome⟩, hid⟩
  · have := List.any_eq_false.mp hyour slot hslot
    rw [hsome] at this
    simp [AdvancedDraftAnalyzer.slotHasId, hid] at this
  · have := List.any_eq_false.mp henemy slot hslot
    rw [hsome] at this
    simp [AdvancedDraftAnalyzer.slotHasId, hid] at this

/-- Helper: every suggestion the advanced analyzer emits carries a hero
of the candidate pool. -/
theorem mem_generateAdvancedSuggestions {A : AdvancedDraftAnalyzer.State}
    {draftState : DraftState} {ctx : GameContext} {rf : Option (List String)}
    {s : AdvancedSuggestion}
    (h : s ∈ AdvancedDraftAnalyzer.generateAdvancedSuggestions A draftState ctx rf) :
    ∃ hero ∈ AdvancedDraftAnalyzer.availableHeroes A.heroes draftState rf,
      s.hero = hero := by
  rw [AdvancedDraftAnalyzer.generateAdvancedSuggestions] at h
  have h' := List.take_subset _ _ h
  have h'' := (List.perm_insertionSort _ _).subset h'
  rcases List.mem_map.mp h'' with ⟨hero, hh, rfl⟩
  exact ⟨hero, hh, rfl⟩

/-- Helper: every suggestion the basic analyzer emits carries a hero
whose id occupies no slot of either team. -/
theorem mem_generateSuggestions_not_picked {B : DraftAnalyzer.State}
    {draftState : DraftState} {rf : Option (List String)} {limit : ℕ}
    {s : DraftSuggestion}
    (h : s ∈ DraftAnalyzer.generateSuggestions B draftState rf limit) :
    s.hero.id ∉ DraftAnalyzer.pickedIds draftState := by
  rw [DraftAnalyzer.generateSuggestions] at h
  have h' := List.take_subset _ _ h
  have h'' := (List.perm_insertionSort _ _).subset h'
  rcases List.mem_map.mp h'' with ⟨hero, hh, rfl⟩
  have hh1 := (List.mem_filter.mp hh).1
  have hh2 := (List.mem_filter.mp hh1).2
  simp only [Bool.not_eq_true'] at hh2
  intro hmem
  have hc : (DraftAnalyzer.pickedIds draftState).contains hero.id = true :=
    List.elem_eq_true_of_mem hmem
  rw [hc] at hh2
  exact absurd hh2 (by simp)

/-- Claim C1: no hero occupying a slot in either team ever appears among
the emitted suggestions: the id lists are disjoint (empty intersection),
both for the advanced analyzer and for the basic analyzer. -/
theorem suggestions_exclude_picked_heroes (A : AdvancedDraftAnalyzer.State)
    (B : DraftAnalyzer.State) (draftState : DraftState) (ctx : GameContext)
    (rfA rfB : Option (List String)) (limit : ℕ) :
    ((AdvancedDraftAnalyzer.generateAdvancedSuggestions A draftState ctx rfA).map
        (fun s => s.hero.id)) ∩ (DraftAnalyzer.pickedIds draftState) = [] ∧
    ((DraftAnalyzer.generateSuggestions B draftState rfB limit).map
        (fun s => s.hero.id)) ∩ (DraftAnalyzer.pickedIds draftState) = [] := by
  constructor
  · rw [List.inter_eq_nil_iff_disjoint]
    intro x hx hpicked
    rcases List.mem_map.mp hx with ⟨s, hs, rfl⟩
    rcases mem_generateAdvancedSuggestions hs with ⟨hero, hav, hh⟩
    rw [hh] at hpicked
    exact mem_availableHeroes_not_picked hav hpicked
  · rw [List.inter_eq_nil_iff_disjoint]
    intro x hx hpicked
    rcases List.mem_map.mp hx with ⟨s, hs, rfl⟩
    exact mem_generateSuggestions_not_picked hs hpicked

/-- Helper: a raised exception anywhere in the candidate list aborts the
whole sequential traversal. -/
theorem mapME_isError_of_any {ε α β : Type} (f : α → Except ε β) (l : List α)
    (h : (l.any fun x => isError (f x)) = true) :
    isError (mapME f l) = true := by
  induction l with
  | nil => simp at h
  | cons x xs ih =>
    simp only [List.any_cons, Bool.or_eq_true] at h
    cases hfx : f x with
    | error e =>
      simp only [mapME, hfx]
      rfl
    | ok y =>
      rcases h with h | h
      · rw [hfx] at h
        simp [isError] at h
      · have hxs := ih h
        simp only [mapME, hfx]
        cases hm : mapME f xs with
        | error e => rfl
        | ok ys =>
          rw [hm] at hxs
          simp [isError] at hxs

/-- Helper: when the traversal of the candidate pool raises, the advanced
generator propagates the exception unchanged. -/
theorem generateAdvancedSuggestionsE_error {A : AdvancedDraftAnalyzer.State}
    {build : Hero → Except String AdvancedSuggestion} {draftState : DraftState}
    {ctx : GameContext} {rf : Option (List String)} {e : String}
    (he : mapME build (AdvancedDraftAnalyzer.availableHeroes A.heroes draftState rf) =
      Except.error e) :
    AdvancedDraftAnalyzer.generateAdvancedSuggestionsE A build draftState ctx rf =
      Except.error e := by
  unfold AdvancedDraftAnalyzer.generateAdvancedSuggestionsE
  rw [he]
  rfl

/-- Claim C5 (amended): exceptions are caught one level up, at the whole
batch, not per candidate.  When any candidate's delegated computation
raises, the integration layer's `catch` turns the entire advanced batch —
the healthy candidates included — into the empty list, which the
`DraftAnalyzer` wrapper then passes through unchanged (its own fallback
never fires because the integration layer never raises). -/
theorem exception_empties_whole_batch (B : DraftAnalyzer.State)
    (build : Hero → Except String AdvancedSuggestion) (draftState : DraftState)
    (ctx : GameContext) (rf : Option (List String)) (limit : ℕ)
    (h : ((AdvancedDraftAnalyzer.availableHeroes B.heroes draftState rf).any
        fun hero => isError (build hero)) = true) :
    DraftAnalyzerIntegration.getEnhancedRecommendationsE
      ⟨B.heroes, B.heroStats⟩ build draftState
      (DraftAnalyzer.advancedOptions ctx rf) = [] ∧
    DraftAnalyzer.generateAdvancedSuggestionsE B build draftState ctx rf limit = [] := by
  have herr := mapME_isError_of_any build _ h
  obtain ⟨e, he⟩ : ∃ e, mapME build
      (AdvancedDraftAnalyzer.availableHeroes B.heroes draftState rf) =
        Except.error e := by
    cases hm : mapME build
        (AdvancedDraftAnalyzer.availableHeroes B.heroes draftState rf) with
    | error e => exact ⟨e, rfl⟩
    | ok v =>
      rw [hm] at herr
      simp [isError] at herr
  have hmain : DraftAnalyzerIntegration.getEnhancedRecommendationsE
      ⟨B.heroes, B.heroStats⟩ build draftState
      (DraftAnalyzer.advancedOptions ctx rf) = [] := by
    unfold DraftAnalyzerIntegration.getEnhancedRecommendationsE
    rw [generateAdvancedSuggestionsE_error he]
  refine ⟨hmain, ?_⟩
  unfold DraftAnalyzer.generateAdvancedSuggestionsE
  rw [hmain]
  simp

/-- Witness for the amended claim C5: a two-candidate roster whose carry
candidate's computation raises loses the whole batch. -/
theorem exception_empties_whole_batch_witness :
    DraftAnalyzerIntegration.getEnhancedRecommendationsE
      ⟨[sampleSupport, sampleCarry], []⟩ failingBuild emptyDraft
      (DraftAnalyzer.advancedOptions {} none) = [] ∧
    DraftAnalyzer.generateAdvancedSuggestionsE
      ⟨[sampleSupport, sampleCarry], [], []⟩ failingBuild emptyDraft {} none 10 = [] :=
  exception_empties_whole_batch ⟨[sampleSupport, sampleCarry], [], []⟩ failingBuild
    emptyDraft {} none 10 (by decide)

/-- Claim C5 (counterexample): with candidates `sampleSupport` (whose
computation succeeds) and `sampleCarry` (whose computation raises), the
source pipeline returns the empty batch — the healthy candidate's
suggestion is lost — while the claimed per-candidate catch would return
both candidates (the failing one downgraded to a neutral breakdown). -/
theorem per_candidate_fallback_counterexample :
    DraftAnalyzer.generateAdvancedSuggestionsE
      ⟨[sampleSupport, sampleCarry], [], []⟩ failingBuild emptyDraft {} none 10 = [] ∧
    (generateSuggestionsPerCandidateCatch ⟨[sampleSupport, sampleCarry], []⟩
      failingBuild emptyDraft {} none).length = 2 := by
  constructor
  · rfl
  · rw [generateSuggestionsPerCandidateCatch, List.length_take,
      (List.perm_insertionSort _ _).length_eq, List.length_map]
    norm_num +decide [AdvancedDraftAnalyzer.availableHeroes]

end Dota2Draft
